import Mathlib

/-
Shallow embedding of the Intervia interview application core:
the call-controller state machine and transcript ingestion
(src/components/Agent.tsx), the feedback generation pipeline and the
repository reads (src/lib/actions/general.action.ts, which carries two
variants of each function; they are embedded as _v1 and _v2), the
feedback validation schema (src/constants/index.ts), and the sign-in
action (src/lib/actions/auth.action.ts).

External services (the Firestore document store, the hosted language
model, the voice SDK) are opaque boundaries: each is modelled as an
explicit oracle argument (an Except value for a read or write that can
throw, an Option value for the structured model response). Firestore
ISO-8601 createdAt strings are modelled as Nat timestamps (well-formed
ISO strings compare chronologically). A collection is a list of
documents in the store's default (document-id) order.
-/

/-- Sender of a message, per the SavedMessage interface in Agent.tsx. -/
inductive Role where
  | user
  | system
  | assistant
deriving DecidableEq, Repr

/-- Rendering of a role, as interpolated into the transcript block. -/
def roleString : Role → String
  | Role.user => "user"
  | Role.system => "system"
  | Role.assistant => "assistant"

/-- An incoming voice-session message event. Agent.tsx inspects the
fields message.type, message.transcriptType, message.role and
message.transcript; events of other kinds carry other type strings. -/
structure Message where
  type : String
  transcriptType : String
  role : Role
  transcript : String
deriving DecidableEq, Repr

/-- One accumulated transcript entry (interface SavedMessage in
Agent.tsx): a role together with the final transcript text. -/
structure SavedMessage where
  role : Role
  content : String
deriving DecidableEq, Repr

/-- The onMessage handler of Agent.tsx: appends a new entry only when
the event is a transcript event whose transcriptType is final;
every other event leaves the accumulated list unchanged. -/
def onMessage (prev : List SavedMessage) (m : Message) : List SavedMessage :=
  if m.type = "transcript" ∧ m.transcriptType = "final" then
    prev ++ [{ role := m.role, content := m.transcript }]
  else prev

/-- Call lifecycle states, per enum CallStatus in Agent.tsx. -/
inductive CallStatus where
  | INACTIVE
  | CONNECTING
  | ACTIVE
  | FINISHED
deriving DecidableEq, Repr

/-- Component-local state of the Agent component: call status, the
speaking indicator and the accumulated transcript. -/
structure AgentState where
  status : CallStatus
  isSpeaking : Bool
  messages : List SavedMessage
deriving DecidableEq, Repr

/-- Initial Agent state: INACTIVE, not speaking, empty transcript. -/
def initialAgentState : AgentState :=
  { status := CallStatus.INACTIVE, isSpeaking := false, messages := [] }

/-- Events delivered by the voice SDK to the handlers registered in the
Agent useEffect: call-start, call-end, message, speech-start,
speech-end and error. -/
inductive AgentEvent where
  | callStart
  | callEnd
  | message (m : Message)
  | speechStart
  | speechEnd
  | sdkError (msg : String)
deriving DecidableEq, Repr

/-- One step of the Agent event handlers: onCallStart sets ACTIVE,
onCallEnd sets FINISHED, onMessage appends final transcripts,
onSpeechStart and onSpeechEnd toggle the speaking flag, and the error
handler only logs (no state change). -/
def stepEvent (s : AgentState) (e : AgentEvent) : AgentState :=
  match e with
  | AgentEvent.callStart => { s with status := CallStatus.ACTIVE }
  | AgentEvent.callEnd => { s with status := CallStatus.FINISHED }
  | AgentEvent.message m => { s with messages := onMessage s.messages m }
  | AgentEvent.speechStart => { s with isSpeaking := true }
  | AgentEvent.speechEnd => { s with isSpeaking := false }
  | AgentEvent.sdkError _ => s

/-- Run the Agent handlers over a whole event trace from the initial
state. -/
def runAgent (events : List AgentEvent) : AgentState :=
  List.foldl stepEvent initialAgentState events

/-- The raw message payloads of the message events of a trace, in
arrival order. -/
def transcriptEvents : List AgentEvent → List Message
  | [] => []
  | AgentEvent.message m :: rest => m :: transcriptEvents rest
  | _ :: rest => transcriptEvents rest

/-- Decidable test matching the guard of onMessage. -/
def isFinalTranscript (m : Message) : Bool :=
  decide (m.type = "transcript" ∧ m.transcriptType = "final")

/-- Projection from a final transcript event to its saved entry. -/
def toSavedMessage (m : Message) : SavedMessage :=
  { role := m.role, content := m.transcript }

/-- The five fixed category names, in schema order, as z.literal values
of feedbackSchema in src/constants/index.ts. -/
def categoryNames : List String :=
  ["Communication Skills", "Technical Knowledge", "Problem Solving",
   "Cultural Fit", "Confidence and Clarity"]

/-- One category score object: a name, a numeric score and a free-text
comment. feedbackSchema types score with a plain z.number, with no
minimum or maximum refinement; numbers are modelled as Int. -/
structure RawCategoryScore where
  name : String
  score : Int
  comment : String
deriving DecidableEq, Repr

/-- A structured model response, shaped like the object feedbackSchema
parses: totalScore, the categoryScores array, strengths,
areasForImprovement and finalAssessment. -/
structure RawFeedbackObject where
  totalScore : Int
  categoryScores : List RawCategoryScore
  strengths : List String
  areasForImprovement : List String
  finalAssessment : String
deriving DecidableEq, Repr

/-- Validation performed by feedbackSchema of src/constants/index.ts:
categoryScores must be a tuple of exactly five objects whose name
fields are the literals of categoryNames, in order. Scores are any
numbers (z.number carries no bound) and comments any strings, which the
field types of RawCategoryScore already guarantee, so acceptance
reduces to the name tuple check. -/
def feedbackSchema (o : RawFeedbackObject) : Bool :=
  o.categoryScores.map RawCategoryScore.name == categoryNames

/-- Parameters of createFeedback: interview id, user id and the
accumulated transcript. -/
structure CreateFeedbackParams where
  interviewId : String
  userId : String
  transcript : List SavedMessage
deriving DecidableEq, Repr

/-- One line of the rendered transcript block, exactly as interpolated
in createFeedback. -/
def formatTranscriptLine (s : SavedMessage) : String :=
  "- " ++ roleString s.role ++ ": " ++ s.content ++ "\n"

/-- The formattedTranscript value of createFeedback: one line per turn,
prefixed by role, joined with no separator. -/
def formattedTranscript (t : List SavedMessage) : String :=
  String.join (t.map formatTranscriptLine)

/-- A persisted feedback document in the feedback collection, as
written by db.collection('feedback').add in createFeedback, with the
store-generated document id. -/
structure FeedbackRecord where
  id : String
  interviewId : String
  userId : String
  totalScore : Int
  categoryScores : List RawCategoryScore
  strengths : List String
  areasForImprovement : List String
  finalAssessment : String
  createdAt : Nat
deriving DecidableEq, Repr

/-- Return value of createFeedback. -/
structure CreateFeedbackResult where
  success : Bool
  feedbackId : Option String
deriving DecidableEq, Repr

/-- createFeedback of src/lib/actions/general.action.ts (both variants
behave identically). The hosted model is the oracle argument, a
function from the rendered transcript block to an optional structured
response: none models a generateObject call that throws, and a some
response is still subject to feedbackSchema (generateObject rejects a
response that fails the schema, which the try block turns into the
failure result). The store write is the oracle persist: a generated
document id, or none when the add call throws. Returns the result
object together with the list of documents written during the call. -/
def createFeedback (params : CreateFeedbackParams)
    (model : String → Option RawFeedbackObject)
    (persist : Option String) (now : Nat) :
    CreateFeedbackResult × List FeedbackRecord :=
  match model (formattedTranscript params.transcript) with
  | none => ({ success := false, feedbackId := none }, [])
  | some o =>
    if feedbackSchema o then
      match persist with
      | none => ({ success := false, feedbackId := none }, [])
      | some fid =>
        ({ success := true, feedbackId := some fid },
         [{ id := fid, interviewId := params.interviewId,
            userId := params.userId, totalScore := o.totalScore,
            categoryScores := o.categoryScores, strengths := o.strengths,
            areasForImprovement := o.areasForImprovement,
            finalAssessment := o.finalAssessment, createdAt := now }])
    else ({ success := false, feedbackId := none }, [])

/-- handleGenerateFeedback of Agent.tsx: invokes createFeedback with
the accumulated transcript; when it returns success together with a
feedback id, navigates to the feedback page of the interview, and
otherwise (including a thrown exception, caught) navigates home.
Returns the navigation target and the documents written. -/
def handleGenerateFeedback (interviewId userId : String)
    (messages : List SavedMessage)
    (model : String → Option RawFeedbackObject)
    (persist : Option String) (now : Nat) :
    String × List FeedbackRecord :=
  let r := createFeedback
    { interviewId := interviewId, userId := userId, transcript := messages }
    model persist now
  match r.1.success, r.1.feedbackId with
  | true, some _ => ("/interview/" ++ interviewId ++ "/feedback", r.2)
  | _, _ => ("/", r.2)

/-- The FINISHED effect of Agent.tsx: once the call status reaches
FINISHED, a generate-mode call navigates home with no further work,
and any other mode (the interview mode) runs handleGenerateFeedback on
the accumulated transcript. -/
def finishedEffect (mode : String) (interviewId userId : String)
    (messages : List SavedMessage)
    (model : String → Option RawFeedbackObject)
    (persist : Option String) (now : Nat) :
    String × List FeedbackRecord :=
  if mode = "generate" then ("/", [])
  else handleGenerateFeedback interviewId userId messages model persist now

/-- Outcome of one handleCall invocation in Agent.tsx. entryStatus is
the status set unconditionally on entry; catchStatus is the status set
by the catch handler when the open-session request throws (none when it
does not); startAttempts counts vapi.start invocations issued. -/
structure HandleCallRun where
  entryStatus : CallStatus
  catchStatus : Option CallStatus
  startAttempts : Nat
deriving DecidableEq, Repr

/-- handleCall of Agent.tsx: sets CONNECTING, issues exactly one
vapi.start request, and on a thrown open-session error resets the
status to INACTIVE; no retry is issued. -/
def handleCall (startFails : Bool) : HandleCallRun :=
  { entryStatus := CallStatus.CONNECTING,
    catchStatus := if startFails then some CallStatus.INACTIVE else none,
    startAttempts := 1 }

/-- An interview document, per the Interview shape of src/types and the
fields queried in general.action.ts. -/
structure InterviewDoc where
  id : String
  role : String
  level : String
  type : String
  techstack : List String
  questions : List String
  userId : String
  finalized : Bool
  createdAt : Nat
deriving DecidableEq, Repr

/-- Descending createdAt order on interview documents, the orderBy
relation of the interview queries. -/
abbrev ivMoreRecent (a b : InterviewDoc) : Prop :=
  b.createdAt ≤ a.createdAt

instance : IsTotal InterviewDoc ivMoreRecent :=
  ⟨fun a b => Nat.le_total b.createdAt a.createdAt⟩

instance : IsTrans InterviewDoc ivMoreRecent :=
  ⟨fun _ _ _ h1 h2 => le_trans h2 h1⟩

/-- Descending createdAt order on feedback documents, the orderBy
relation of the second-variant feedback query. -/
abbrev fbMoreRecent (a b : FeedbackRecord) : Prop :=
  b.createdAt ≤ a.createdAt

instance : IsTotal FeedbackRecord fbMoreRecent :=
  ⟨fun a b => Nat.le_total b.createdAt a.createdAt⟩

instance : IsTrans FeedbackRecord fbMoreRecent :=
  ⟨fun _ _ _ h1 h2 => le_trans h2 h1⟩

/-- The interviews-by-user query shared by both variants: filter on
userId equality, then order by createdAt descending. -/
def interviewsByUserQuery (docs : List InterviewDoc) (userId : String) :
    List InterviewDoc :=
  List.insertionSort ivMoreRecent (docs.filter (fun d => d.userId == userId))

/-- First-variant getInterviewByUserId: no try block, so a store read
error propagates to the caller. -/
def getInterviewByUserId_v1 (q : Except Unit (List InterviewDoc))
    (userId : String) : Except Unit (List InterviewDoc) :=
  match q with
  | Except.error e => Except.error e
  | Except.ok docs => Except.ok (interviewsByUserQuery docs userId)

/-- Second-variant getInterviewByUserId: the catch block converts a
store read error to null. -/
def getInterviewByUserId_v2 (q : Except Unit (List InterviewDoc))
    (userId : String) : Option (List InterviewDoc) :=
  match q with
  | Except.error _ => none
  | Except.ok docs => some (interviewsByUserQuery docs userId)

/-- Default value of the limit parameter of getLatestInterviews. -/
def latestInterviewsDefaultLimit : Nat := 20

/-- The latest-interviews query shared by both variants: order by
createdAt descending, keep only finalized documents, keep only
documents of other users, and take at most limit documents. -/
def latestInterviewsQuery (docs : List InterviewDoc) (userId : String)
    (limit : Nat) : List InterviewDoc :=
  ((((List.insertionSort ivMoreRecent docs).filter
      (fun d => d.finalized)).filter
      (fun d => d.userId != userId)).take limit)

/-- First-variant getLatestInterviews: no try block, so a store read
error propagates to the caller. -/
def getLatestInterviews_v1 (q : Except Unit (List InterviewDoc))
    (userId : String) (limit : Nat) : Except Unit (List InterviewDoc) :=
  match q with
  | Except.error e => Except.error e
  | Except.ok docs => Except.ok (latestInterviewsQuery docs userId limit)

/-- Second-variant getLatestInterviews: the catch block converts a
store read error to null. -/
def getLatestInterviews_v2 (q : Except Unit (List InterviewDoc))
    (userId : String) (limit : Nat) : Option (List InterviewDoc) :=
  match q with
  | Except.error _ => none
  | Except.ok docs => some (latestInterviewsQuery docs userId limit)

/-- First-variant getInterviewById: a point read of the document with
the given id; no try block, so a store read error propagates. -/
def getInterviewById_v1 (q : Except Unit (List InterviewDoc))
    (id : String) : Except Unit (Option InterviewDoc) :=
  match q with
  | Except.error e => Except.error e
  | Except.ok docs => Except.ok (docs.find? (fun d => d.id == id))

/-- Second-variant getInterviewById: the exists check yields null for a
missing document and the catch block converts a read error to null. -/
def getInterviewById_v2 (q : Except Unit (List InterviewDoc))
    (id : String) : Option InterviewDoc :=
  match q with
  | Except.error _ => none
  | Except.ok docs => docs.find? (fun d => d.id == id)

/-- The match filter of the feedback lookup: interviewId and userId
both equal the requested pair. -/
def feedbackMatches (interviewId userId : String)
    (d : FeedbackRecord) : Bool :=
  d.interviewId == interviewId && d.userId == userId

/-- First-variant getFeedbackByInterviewId: filter on the pair, limit
one, and return the first document of the snapshot or null when empty.
There is no orderBy clause, so the snapshot keeps the collection's
default order; and no try block, so a read error propagates. -/
def getFeedbackByInterviewId_v1 (q : Except Unit (List FeedbackRecord))
    (interviewId userId : String) : Except Unit (Option FeedbackRecord) :=
  match q with
  | Except.error e => Except.error e
  | Except.ok docs =>
    Except.ok (((docs.filter (feedbackMatches interviewId userId)).take 1).head?)

/-- Second-variant getFeedbackByInterviewId: filter on the pair, order
by createdAt descending, limit one, and return the first document or
null when empty; the catch block converts a read error to null. -/
def getFeedbackByInterviewId_v2 (q : Except Unit (List FeedbackRecord))
    (interviewId userId : String) : Option FeedbackRecord :=
  match q with
  | Except.error _ => none
  | Except.ok docs =>
    ((List.insertionSort fbMoreRecent
        (docs.filter (feedbackMatches interviewId userId))).take 1).head?

/-- A stored user record, as far as signIn inspects it. -/
structure UserRecord where
  uid : String
  email : String
deriving DecidableEq, Repr

/-- The failure object signIn returns: success false and a message. -/
structure SignInMessage where
  success : Bool
  message : String
deriving DecidableEq, Repr

/-- signIn of src/lib/actions/auth.action.ts. The user lookup oracle is
the auth.getUserByEmail outcome (a thrown error, a missing record, or a
found record); the cookie oracle is the setSessionCookie outcome. On a
missing record or any thrown error a failure object is returned; when
lookup and cookie creation both succeed the function falls off the end
of the try block and returns undefined, modelled as none. -/
def signIn (userLookup : Except Unit (Option UserRecord))
    (sessionCookie : Except Unit Unit) : Option SignInMessage :=
  match userLookup with
  | Except.error _ =>
    some { success := false, message := "Failed to log into the account" }
  | Except.ok none =>
    some { success := false,
           message := "User does not exist! Create an account first" }
  | Except.ok (some _) =>
    match sessionCookie with
    | Except.error _ =>
      some { success := false, message := "Failed to log into the account" }
    | Except.ok _ => none

/-- A schema-accepted model response with in-range scores, used as a
concrete input. -/
def demoFeedbackObject : RawFeedbackObject :=
  { totalScore := 80,
    categoryScores :=
      [{ name := "Communication Skills", score := 82, comment := "clear" },
       { name := "Technical Knowledge", score := 75, comment := "fair" },
       { name := "Problem Solving", score := 70, comment := "fair" },
       { name := "Cultural Fit", score := 85, comment := "good" },
       { name := "Confidence and Clarity", score := 78, comment := "good" }],
    strengths := ["clear answers"],
    areasForImprovement := ["more detail"],
    finalAssessment := "solid candidate" }

/-- A model response carrying the five fixed category names but with
every score equal to 150, outside the 0 to 100 range the prompt
requests. -/
def overRangeFeedbackObject : RawFeedbackObject :=
  { totalScore := 150,
    categoryScores :=
      [{ name := "Communication Skills", score := 150, comment := "" },
       { name := "Technical Knowledge", score := 150, comment := "" },
       { name := "Problem Solving", score := 150, comment := "" },
       { name := "Cultural Fit", score := 150, comment := "" },
       { name := "Confidence and Clarity", score := 150, comment := "" }],
    strengths := [],
    areasForImprovement := [],
    finalAssessment := "" }

/-- Concrete createFeedback parameters. -/
def demoParams : CreateFeedbackParams :=
  { interviewId := "i1", userId := "u1",
    transcript := [{ role := Role.user, content := "I know React" }] }

/-- A concrete event trace: the call starts, one final transcript event
arrives, and the call ends. -/
def demoTrace : List AgentEvent :=
  [AgentEvent.callStart,
   AgentEvent.message
     { type := "transcript", transcriptType := "final",
       role := Role.user, transcript := "I know React" },
   AgentEvent.callEnd]

/-- The document createFeedback persists for demoParams,
demoFeedbackObject, document id fb1 and timestamp 7. -/
def demoPersistedRecord : FeedbackRecord :=
  { id := "fb1", interviewId := "i1", userId := "u1", totalScore := 80,
    categoryScores := demoFeedbackObject.categoryScores,
    strengths := ["clear answers"],
    areasForImprovement := ["more detail"],
    finalAssessment := "solid candidate", createdAt := 7 }

/-- A feedback document for the pair i1, u1 created at time 1; its
document id a places it first in the collection's default order. -/
def fbDocOlder : FeedbackRecord :=
  { id := "a", interviewId := "i1", userId := "u1", totalScore := 40,
    categoryScores := [], strengths := [], areasForImprovement := [],
    finalAssessment := "first attempt", createdAt := 1 }

/-- A more recent feedback document for the same pair, created at time
2, with document id b. -/
def fbDocNewer : FeedbackRecord :=
  { id := "b", interviewId := "i1", userId := "u1", totalScore := 90,
    categoryScores := [], strengths := [], areasForImprovement := [],
    finalAssessment := "second attempt", createdAt := 2 }

/-- A finalized interview owned by another user. -/
def demoOtherInterview : InterviewDoc :=
  { id := "iv1", role := "Frontend Developer", level := "Junior",
    type := "Technical", techstack := ["React"],
    questions := ["What is React?"], userId := "other",
    finalized := true, createdAt := 5 }

/-- A concrete stored user record. -/
def demoUser : UserRecord :=
  { uid := "u1", email := "user@gmail.com" }

/-- Folding the Agent handlers over a trace appends exactly the final
transcript events, projected to saved entries, to the starting
transcript. -/
theorem foldl_stepEvent_messages (events : List AgentEvent) (s : AgentState) :
    (List.foldl stepEvent s events).messages =
      s.messages ++
        ((transcriptEvents events).filter isFinalTranscript).map toSavedMessage := by
  induction events generalizing s with
  | nil => simp [transcriptEvents]
  | cons e rest ih =>
    cases e with
    | message m =>
      rw [List.foldl_cons, ih]
      by_cases h : m.type = "transcript" ∧ m.transcriptType = "final"
      · simp [stepEvent, transcriptEvents, onMessage, isFinalTranscript,
          toSavedMessage, h, List.filter_cons]
      · simp [stepEvent, transcriptEvents, onMessage, isFinalTranscript,
          toSavedMessage, h, List.filter_cons]
    | callStart => rw [List.foldl_cons, ih]; rfl
    | callEnd => rw [List.foldl_cons, ih]; rfl
    | speechStart => rw [List.foldl_cons, ih]; rfl
    | speechEnd => rw [List.foldl_cons, ih]; rfl
    | sdkError msg => rw [List.foldl_cons, ih]; rfl

/-- The head of a take of one element is the head. -/
theorem head?_take_one {α : Type} (l : List α) : (l.take 1).head? = l.head? := by
  cases l <;> rfl

/-- C7: for every sequence of incoming voice-session message events, the
accumulated transcript is exactly the list of events of kind transcript
with sub-kind final, projected to role-and-content entries in arrival
order; in particular no non-final transcript event is ever appended,
and the transcript handed to the feedback generator at call end is this
same list. -/
theorem transcript_contains_exactly_final_events (events : List AgentEvent) :
    (runAgent events).messages =
      ((transcriptEvents events).filter isFinalTranscript).map toSavedMessage := by
  have h := foldl_stepEvent_messages events initialAgentState
  simpa [runAgent, initialAgentState] using h

/-- C8: handleCall sets the call status to CONNECTING on entry, issues
exactly one open-session request, and when that request throws, the
catch handler resets the status to INACTIVE with no retry. -/
theorem handleCall_connecting_and_inactive_on_failure (startFails : Bool) :
    (handleCall startFails).entryStatus = CallStatus.CONNECTING ∧
    (handleCall true).catchStatus = some CallStatus.INACTIVE ∧
    (handleCall false).catchStatus = none ∧
    (handleCall startFails).startAttempts = 1 :=
  ⟨rfl, rfl, rfl, rfl⟩

/-- C3: feedbackSchema accepts an object exactly when its
categoryScores field has exactly five entries whose names are, in
order, Communication Skills, Technical Knowledge, Problem Solving,
Cultural Fit, and Confidence and Clarity; any other category list is
rejected. -/
theorem feedbackSchema_fixed_categories (o : RawFeedbackObject) :
    feedbackSchema o = true ↔
      (o.categoryScores.length = 5 ∧
       o.categoryScores.map RawCategoryScore.name =
         ["Communication Skills", "Technical Knowledge", "Problem Solving",
          "Cultural Fit", "Confidence and Clarity"]) := by
  unfold feedbackSchema
  rw [beq_iff_eq]
  constructor
  · intro h
    refine ⟨?_, by simpa [categoryNames] using h⟩
    have hlen := congrArg List.length h
    simpa [categoryNames] using hlen
  · intro h
    simpa [categoryNames] using h.2

/-- The fixed-category characterization instantiated at a concrete
accepted object. -/
theorem feedbackSchema_fixed_categories_witness :
    feedbackSchema demoFeedbackObject = true :=
  (feedbackSchema_fixed_categories demoFeedbackObject).mpr ⟨rfl, rfl⟩

/-- C1 counterexample: a model response with the five fixed category
names and every score equal to 150 passes feedbackSchema, and
createFeedback persists it verbatim, so a persisted document can carry
a totalScore and category scores outside 0 to 100. -/
theorem createFeedback_score_range_counterexample :
    feedbackSchema overRangeFeedbackObject = true ∧
    (createFeedback demoParams (fun _ => some overRangeFeedbackObject)
        (some "fb1") 7).1.success = true ∧
    ((createFeedback demoParams (fun _ => some overRangeFeedbackObject)
        (some "fb1") 7).2.map FeedbackRecord.totalScore) = [150] ∧
    ((createFeedback demoParams (fun _ => some overRangeFeedbackObject)
        (some "fb1") 7).2.map
        (fun r => r.categoryScores.map RawCategoryScore.score)) =
      [[150, 150, 150, 150, 150]] ∧
    ¬ ((150 : Int) ≤ 100) :=
  ⟨rfl, rfl, rfl, rfl, by decide⟩

/-- C1 (amended): every document persisted by createFeedback carries
exactly the five fixed category names in schema order, and its
totalScore and category scores are exactly those of the schema-accepted
model response; the 0 to 100 range is requested in the prompt but is
not enforced by the schema or by createFeedback. -/
theorem createFeedback_persists_model_scores (p : CreateFeedbackParams)
    (model : String → Option RawFeedbackObject) (persist : Option String)
    (now : Nat) (rec : FeedbackRecord)
    (hrec : rec ∈ (createFeedback p model persist now).2) :
    rec.categoryScores.map RawCategoryScore.name = categoryNames ∧
    ∃ o, model (formattedTranscript p.transcript) = some o ∧
      feedbackSchema o = true ∧ rec.totalScore = o.totalScore ∧
      rec.categoryScores = o.categoryScores := by
  cases hmo : model (formattedTranscript p.transcript) with
  | none =>
    simp [createFeedback, hmo] at hrec
  | some o =>
    by_cases hs : feedbackSchema o = true
    · cases persist with
      | none => simp [createFeedback, hmo, hs] at hrec
      | some fid =>
        simp only [createFeedback, hmo, hs, if_true, List.mem_singleton] at hrec
        subst hrec
        refine ⟨?_, o, rfl, hs, rfl, rfl⟩
        unfold feedbackSchema at hs
        exact beq_iff_eq.mp hs
    · simp [createFeedback, hmo, hs] at hrec

/-- The amended persistence property instantiated at a concrete run. -/
theorem createFeedback_persists_model_scores_witness :
    demoPersistedRecord.categoryScores.map RawCategoryScore.name =
      categoryNames :=
  (createFeedback_persists_model_scores demoParams
      (fun _ => some demoFeedbackObject) (some "fb1") 7 demoPersistedRecord
      (by decide)).1

/-- C4: createFeedback returns success true with the generated feedback
id exactly when the model call returns a schema-accepted response and
the persistence succeeds, in which case exactly one document is
written; on any failure (model call failure, schema mismatch or
persistence failure) it returns success false with no feedback id and
no document is written. -/
theorem createFeedback_success_iff (p : CreateFeedbackParams)
    (model : String → Option RawFeedbackObject) (persist : Option String)
    (now : Nat) :
    ((createFeedback p model persist now).1.success = true ↔
      (∃ o, model (formattedTranscript p.transcript) = some o ∧
        feedbackSchema o = true) ∧ ∃ fid, persist = some fid) ∧
    ((createFeedback p model persist now).1.success = true →
      (createFeedback p model persist now).1.feedbackId = persist ∧
      (createFeedback p model persist now).2.length = 1) ∧
    ((createFeedback p model persist now).1.success = false →
      (createFeedback p model persist now).1.feedbackId = none ∧
      (createFeedback p model persist now).2 = []) := by
  cases hmo : model (formattedTranscript p.transcript) with
  | none => simp [createFeedback, hmo]
  | some o =>
    by_cases hs : feedbackSchema o = true
    · cases persist with
      | none => simp [createFeedback, hmo, hs]
      | some fid => simp [createFeedback, hmo, hs]
    · simp [createFeedback, hmo, hs]

/-- The success characterization instantiated at a concrete successful
run. -/
theorem createFeedback_success_iff_witness :
    (createFeedback demoParams (fun _ => some demoFeedbackObject)
        (some "fb1") 7).1.success = true :=
  (createFeedback_success_iff demoParams (fun _ => some demoFeedbackObject)
      (some "fb1") 7).1.mpr
    ⟨⟨demoFeedbackObject, rfl, rfl⟩, "fb1", rfl⟩

/-- C2: when a call run in interview mode reaches FINISHED with a
non-empty accumulated transcript and the model call on that transcript
returns a schema-accepted response and the store write succeeds, the
FINISHED effect persists exactly one new feedback document and
navigates to the feedback page of the interview. -/
theorem interview_finished_persists_once (events : List AgentEvent)
    (interviewId userId : String)
    (model : String → Option RawFeedbackObject) (o : RawFeedbackObject)
    (fid : String) (now : Nat)
    (hfin : (runAgent events).status = CallStatus.FINISHED)
    (hne : (runAgent events).messages ≠ [])
    (hmo : model (formattedTranscript (runAgent events).messages) = some o)
    (hs : feedbackSchema o = true) :
    (finishedEffect "interview" interviewId userId (runAgent events).messages
        model (some fid) now).2.length = 1 ∧
    (finishedEffect "interview" interviewId userId (runAgent events).messages
        model (some fid) now).1 =
      "/interview/" ++ interviewId ++ "/feedback" := by
  unfold finishedEffect
  rw [if_neg (by decide)]
  unfold handleGenerateFeedback createFeedback
  simp [hmo, hs]

/-- The FINISHED effect instantiated at a concrete successful interview
trace. -/
theorem interview_finished_persists_once_witness :
    (finishedEffect "interview" "i1" "u1" (runAgent demoTrace).messages
        (fun _ => some demoFeedbackObject) (some "fb1") 7).2.length = 1 :=
  (interview_finished_persists_once demoTrace "i1" "u1"
      (fun _ => some demoFeedbackObject) demoFeedbackObject "fb1" 7
      (by decide) (by decide) rfl rfl).1

/-- C6: getLatestInterviews (both variants run the same query) never
returns an interview owned by the given user, never returns a
non-finalized interview, and returns at most limit documents; the limit
parameter defaults to 20. -/
theorem getLatestInterviews_excludes_and_limits
    (store : List InterviewDoc) (userId : String) (limit : Nat) :
    getLatestInterviews_v1 (Except.ok store) userId limit =
      Except.ok (latestInterviewsQuery store userId limit) ∧
    getLatestInterviews_v2 (Except.ok store) userId limit =
      some (latestInterviewsQuery store userId limit) ∧
    (∀ d, d ∈ latestInterviewsQuery store userId limit →
      d.userId ≠ userId ∧ d.finalized = true) ∧
    (latestInterviewsQuery store userId limit).length ≤ limit ∧
    latestInterviewsDefaultLimit = 20 := by
  refine ⟨rfl, rfl, ?_, ?_, rfl⟩
  · intro d hd
    unfold latestInterviewsQuery at hd
    have hd1 := List.take_subset _ _ hd
    have h2 := List.mem_filter.mp hd1
    have h3 := List.mem_filter.mp h2.1
    exact ⟨bne_iff_ne.mp h2.2, h3.2⟩
  · unfold latestInterviewsQuery
    rw [List.length_take]
    exact min_le_left _ _

/-- The exclusion property instantiated at a concrete store. -/
theorem getLatestInterviews_excludes_and_limits_witness :
    demoOtherInterview.userId ≠ "me" ∧
    demoOtherInterview.finalized = true :=
  (getLatestInterviews_excludes_and_limits [demoOtherInterview] "me"
      20).2.2.1 demoOtherInterview (by decide)

/-- C9 counterexample: the first-variant reads have no try block, so a
store read error propagates to the caller as an exception instead of
being converted to null or an empty result. -/
theorem repositoryReads_v1_propagate_counterexample :
    getInterviewByUserId_v1 (Except.error ()) "u1" = Except.error () ∧
    getLatestInterviews_v1 (Except.error ()) "u1" 20 = Except.error () ∧
    getInterviewById_v1 (Except.error ()) "iv1" = Except.error () ∧
    getFeedbackByInterviewId_v1 (Except.error ()) "i1" "u1" =
      Except.error () :=
  ⟨rfl, rfl, rfl, rfl⟩

/-- C9 (amended): the second-variant read operations catch store read
errors and return null, while the corresponding first-variant reads
propagate the exception to the caller. -/
theorem repositoryReads_error_handling (userId interviewId id : String)
    (limit : Nat) :
    getInterviewByUserId_v2 (Except.error ()) userId = none ∧
    getLatestInterviews_v2 (Except.error ()) userId limit = none ∧
    getInterviewById_v2 (Except.error ()) id = none ∧
    getFeedbackByInterviewId_v2 (Except.error ()) interviewId userId =
      none ∧
    getInterviewByUserId_v1 (Except.error ()) userId = Except.error () ∧
    getLatestInterviews_v1 (Except.error ()) userId limit =
      Except.error () ∧
    getInterviewById_v1 (Except.error ()) id = Except.error () ∧
    getFeedbackByInterviewId_v1 (Except.error ()) interviewId userId =
      Except.error () :=
  ⟨rfl, rfl, rfl, rfl, rfl, rfl, rfl, rfl⟩

/-- C5 counterexample: with two feedback documents for the same pair in
the collection's default order, the older one first, the first-variant
lookup (which has no orderBy clause) returns the older document, not
the one with the greatest createdAt. -/
theorem getFeedbackByInterviewId_v1_not_most_recent :
    getFeedbackByInterviewId_v1 (Except.ok [fbDocOlder, fbDocNewer])
        "i1" "u1" = Except.ok (some fbDocOlder) ∧
    feedbackMatches "i1" "u1" fbDocNewer = true ∧
    fbDocOlder.createdAt < fbDocNewer.createdAt :=
  ⟨rfl, rfl, by decide⟩

/-- C5 (amended): for every pair, the lookup returns null exactly when
no matching feedback document exists; otherwise the second variant
returns a matching document whose createdAt is greatest among all
matches, while the first variant, which has no orderBy clause, returns
the first matching document in the collection's default order, which
need not be the most recent one. -/
theorem getFeedbackByInterviewId_lookup (store : List FeedbackRecord)
    (interviewId userId : String) :
    (getFeedbackByInterviewId_v2 (Except.ok store) interviewId userId =
        none ↔
      ∀ d ∈ store, feedbackMatches interviewId userId d = false) ∧
    (∀ d, getFeedbackByInterviewId_v2 (Except.ok store) interviewId userId =
        some d →
      d ∈ store ∧ feedbackMatches interviewId userId d = true ∧
      ∀ e ∈ store, feedbackMatches interviewId userId e = true →
        e.createdAt ≤ d.createdAt) ∧
    getFeedbackByInterviewId_v1 (Except.ok store) interviewId userId =
      Except.ok ((store.filter (feedbackMatches interviewId userId)).head?) := by
  have hperm := List.perm_insertionSort fbMoreRecent
    (store.filter (feedbackMatches interviewId userId))
  have hsort := List.sorted_insertionSort fbMoreRecent
    (store.filter (feedbackMatches interviewId userId))
  refine ⟨?_, ?_, ?_⟩
  · show ((List.insertionSort fbMoreRecent
        (store.filter (feedbackMatches interviewId userId))).take 1).head? =
          none ↔ _
    rw [head?_take_one, List.head?_eq_none_iff]
    constructor
    · intro h
      rw [h] at hperm
      have hfil := (List.Perm.symm hperm).eq_nil
      intro d hd
      have := List.filter_eq_nil_iff.mp hfil d hd
      simpa using this
    · intro h
      have hfil : store.filter (feedbackMatches interviewId userId) = [] :=
        List.filter_eq_nil_iff.mpr (fun a ha => by simp [h a ha])
      rw [hfil]
      rfl
  · intro d hd
    replace hd : ((List.insertionSort fbMoreRecent
        (store.filter (feedbackMatches interviewId userId))).take 1).head? =
          some d := hd
    rw [head?_take_one] at hd
    cases hsl : List.insertionSort fbMoreRecent
        (store.filter (feedbackMatches interviewId userId)) with
    | nil => rw [hsl] at hd; simp at hd
    | cons a t =>
      rw [hsl] at hd
      simp only [List.head?_cons, Option.some.injEq] at hd
      subst hd
      rw [hsl] at hperm hsort
      have hdfil : a ∈ store.filter (feedbackMatches interviewId userId) :=
        hperm.mem_iff.mp (List.mem_cons_self a t)
      have hdmem := List.mem_filter.mp hdfil
      refine ⟨hdmem.1, hdmem.2, ?_⟩
      intro e he hme
      have hefil : e ∈ store.filter (feedbackMatches interviewId userId) :=
        List.mem_filter.mpr ⟨he, hme⟩
      have hecons : e ∈ a :: t := hperm.mem_iff.mpr hefil
      rcases List.mem_cons.mp hecons with heq | ht
      · subst heq; exact le_refl _
      · exact (List.sorted_cons.mp hsort).1 e ht
  · show Except.ok (((store.filter
        (feedbackMatches interviewId userId)).take 1).head?) = _
    rw [head?_take_one]

/-- The lookup characterization instantiated at the two-document
store: the second variant returns the most recent match. -/
theorem getFeedbackByInterviewId_lookup_witness :
    fbDocNewer ∈ [fbDocOlder, fbDocNewer] ∧
    feedbackMatches "i1" "u1" fbDocNewer = true ∧
    ∀ e ∈ [fbDocOlder, fbDocNewer],
      feedbackMatches "i1" "u1" e = true →
        e.createdAt ≤ fbDocNewer.createdAt :=
  (getFeedbackByInterviewId_lookup [fbDocOlder, fbDocNewer] "i1"
      "u1").2.1 fbDocNewer (by decide)

/-- C10: signIn returns an object with success false and a message on
every failure path, and returns undefined (no success object) exactly
when the user lookup finds a record and session-cookie creation
succeeds. -/
theorem signIn_undefined_on_success
    (userLookup : Except Unit (Option UserRecord))
    (sessionCookie : Except Unit Unit) :
    (signIn userLookup sessionCookie = none ↔
      (∃ u, userLookup = Except.ok (some u)) ∧
        sessionCookie = Except.ok ()) ∧
    (∀ r, signIn userLookup sessionCookie = some r → r.success = false) := by
  cases userLookup with
  | error e => cases e; simp [signIn]
  | ok ou =>
    cases ou with
    | none => simp [signIn]
    | some u =>
      cases sessionCookie with
      | error e => cases e; simp [signIn]
      | ok v => cases v; simp [signIn]

/-- The sign-in characterization instantiated at a successful login. -/
theorem signIn_undefined_on_success_witness :
    signIn (Except.ok (some demoUser)) (Except.ok ()) = none :=
  (signIn_undefined_on_success (Except.ok (some demoUser))
      (Except.ok ())).1.mpr ⟨⟨demoUser, rfl⟩, rfl⟩
